import Mathlib

/-!
Shallow embedding of the Viral Daily video-aggregation service
(`backend/server.py` and `BULLETPROOF_SERVER.py`) in Lean 4.

Python integers are modelled as `Int` (or `Nat` where the value is a count),
Python floats as `Real`, Python strings as `String`, raised exceptions as
`Except` values, and the ambient random-number generator as an explicit
stream of draws passed to each function that consumes randomness.
External-API calls are modelled by passing the outcome of the call
(`Except` of a payload) as an argument.
-/

namespace ViralDaily

/-- A Python exception value (message only). -/
def PyErr : Type := String

/-- The platform enum from `models.py` as used by `backend/server.py`
(YouTube, TikTok, Twitter; Instagram is excluded). -/
inductive Platform where
  | youtube
  | tiktok
  | twitter
deriving DecidableEq, Repr, Inhabited

/-- The normalized video record (`ViralVideo` in `models.py`, described in
the spec data model): identity, descriptive fields, metrics and timestamps.
Timestamps are modelled as integer hour counts. -/
structure ViralVideo where
  title : String
  url : String
  thumbnail : String
  platform : Platform
  views : Int
  likes : Int
  shares : Int := 0
  author : String
  duration : String := ""
  description : String := ""
  viral_score : Real
  published_at : Int
deriving Inhabited

/-! ## Duration parser (`VideoAggregator.parse_duration`, server.py lines 176-193)

`re.match(r'PT(?:(\d+)H)?(?:(\d+)M)?(?:(\d+)S)?', duration)` is anchored at the
start of the string.  Each optional group matches a maximal run of digits
followed by its letter; a shorter (backtracked) run of digits is always
followed by another digit, never by the letter, so maximal-munch per group is
exact.  Python's `\d` (any Unicode decimal digit) is modelled as the ASCII
digits. -/

/-- Numeric value of a digit string (`int(...)` on the captured group). -/
def digitsToNat (ds : List Char) : Nat :=
  ds.foldl (fun n c => 10 * n + (c.toNat - 48)) 0

/-- One optional regex group `(?:(\d+)X)?` at the current position: returns the
captured number (if the group participates) and the rest of the input. -/
def matchGroup (letter : Char) (s : List Char) : Option Nat × List Char :=
  let p := s.span (fun c => c.isDigit)
  match p.2 with
  | c :: rest => if c = letter ∧ p.1 ≠ [] then (some (digitsToNat p.1), rest) else (none, s)
  | [] => (none, s)

/-- Python `"{:02d}".format n`: decimal digits, zero-padded to width 2. -/
def pad2 (n : Nat) : String :=
  if n < 10 then "0" ++ toString n else toString n

/-- The `f"{minutes}:{seconds:02d}"` display form. -/
def fmtMS (minutes seconds : Nat) : String :=
  toString minutes ++ ":" ++ pad2 seconds

/-- The `f"{hours}:{minutes:02d}:{seconds:02d}"` display form. -/
def fmtHMS (hours minutes seconds : Nat) : String :=
  toString hours ++ ":" ++ pad2 minutes ++ ":" ++ pad2 seconds

/-- `VideoAggregator.parse_duration`: parse the YouTube `PT1M30S` duration
format into a display string.  The empty string and any string whose head is
not `PT` fail the anchored regex and yield `"0:00"`. -/
def parse_duration (duration : String) : String :=
  match duration.toList with
  | 'P' :: 'T' :: rest =>
    let gh := matchGroup 'H' rest
    let gm := matchGroup 'M' gh.2
    let gs := matchGroup 'S' gm.2
    let hours := gh.1.getD 0
    let minutes := gm.1.getD 0
    let seconds := gs.1.getD 0
    if hours > 0 then fmtHMS hours minutes seconds else fmtMS minutes seconds
  | _ => "0:00"

/-- Does the string begin with the literal `PT` (the only way the anchored
regex in `parse_duration` can fail)? -/
def startsWithPT (s : String) : Bool :=
  match s.toList with
  | 'P' :: 'T' :: _ => true
  | _ => false

/-- The (hours, minutes, seconds) triple captured by the three regex groups
of `parse_duration` on an input (all zero when the anchored regex fails):
the components from which the display string is formatted. -/
def parsed_hms (s : String) : Nat × Nat × Nat :=
  match s.toList with
  | 'P' :: 'T' :: rest =>
    let gh := matchGroup 'H' rest
    let gm := matchGroup 'M' gh.2
    let gs := matchGroup 'S' gm.2
    (gh.1.getD 0, gm.1.getD 0, gs.1.getD 0)
  | _ => (0, 0, 0)

/-! ## Viral score calculator (`VideoAggregator.calculate_viral_score`,
server.py lines 195-213) -/

/-- `VideoAggregator.calculate_viral_score`: logarithmic view score plus
likes-per-view engagement, scaled by a recency multiplier and capped at 100.
`if not views or views == 0` collapses to `views = 0` on integers; the
engagement guard `if likes and views > 0` is `likes ≠ 0 ∧ views > 0`. -/
noncomputable def calculate_viral_score (views likes days_old : Int) : Real :=
  if views = 0 then 0
  else
    let view_score : Real := Real.logb 10 ((max views 1 : Int) : Real) * 10
    let engagement_ratio : Real :=
      if likes ≠ 0 ∧ views > 0 then (likes : Real) / (views : Real) else 0
    let engagement_score := engagement_ratio * 100
    let recency_multiplier : Real := max 1 (10 - (days_old : Real) * 0.5)
    min ((view_score + engagement_score) * recency_multiplier) 100

/-! ## Randomness model

Every `random.randint` / `random.uniform` call site receives one draw from an
explicit stream, so the mock generators are deterministic functions of the
stream. -/

/-- A stream of random draws: `nat` feeds `randint` call sites, `real` gives
the value produced by `random.uniform` call sites. -/
structure Rng where
  nat : Nat → Nat
  real : Nat → Real

/-- `random.randint lo hi`: a value in `[lo, hi]`, selected by the draw. -/
def randint (lo hi : Int) (draw : Nat) : Int :=
  lo + (draw : Int) % (hi - lo + 1)

/-- `random.uniform lo hi`: the drawn real, clamped into `[lo, hi]`. -/
noncomputable def uniform (lo hi : Real) (u : Real) : Real :=
  min (max u lo) hi

/-! ## SVG thumbnail generation
(`VideoAggregator.generate_platform_thumbnail`, server.py lines 215-267) -/

/-- Per-platform colour, icon and caption used in the generated SVG. -/
def platform_config : Platform → String × String × String
  | .tiktok => ("#000000", "🎵", "TIKTOK")
  | .twitter => ("#1DA1F2", "🐦", "TWITTER")
  | .youtube => ("#FF0000", "📺", "YOUTUBE")

/-- `VideoAggregator.generate_platform_thumbnail`: a `data:image/svg+xml`
URI holding an inline SVG with the platform colour, icon, name, score and a
truncated title.  The percent-encoding applied by `urllib.parse.quote` is
elided (the spec places SVG string generation out of scope); the data-URI
header and SVG body are kept. -/
noncomputable def generate_platform_thumbnail
    (platform : Platform) (viral_score : Real) (title : String) : String :=
  let config := platform_config platform
  let display_title := if title.length > 30 then title.take 30 ++ "..." else title
  let score : Int := if viral_score ≠ 0 then ⌊viral_score⌋ else 0
  let svg_content :=
    "<svg width=\"400\" height=\"225\" xmlns=\"http://www.w3.org/2000/svg\">" ++
    "<rect width=\"400\" height=\"225\" fill=\"" ++ config.1 ++ "\"/>" ++
    "<text x=\"200\" y=\"80\" text-anchor=\"middle\" fill=\"white\" font-size=\"40\" font-weight=\"bold\">" ++
      config.2.1 ++ "</text>" ++
    "<text x=\"200\" y=\"110\" text-anchor=\"middle\" fill=\"white\" font-size=\"20\" font-weight=\"bold\">" ++
      config.2.2 ++ "</text>" ++
    "<text x=\"200\" y=\"135\" text-anchor=\"middle\" fill=\"white\" font-size=\"16\" opacity=\"0.9\">Viral Score: " ++
      toString score ++ "</text>" ++
    "<text x=\"200\" y=\"160\" text-anchor=\"middle\" fill=\"white\" font-size=\"12\" opacity=\"0.7\">VIRAL DAILY</text>" ++
    "<text x=\"200\" y=\"207\" text-anchor=\"middle\" fill=\"white\" font-size=\"11\" opacity=\"0.8\">" ++
      display_title ++ "</text></svg>"
  "data:image/svg+xml;charset=utf-8," ++ svg_content

/-! ## YouTube fetcher
(`VideoAggregator.fetch_youtube_viral_videos`, server.py lines 269-433) -/

/-- One entry of the `thumbnails` dict of a YouTube API item: each size maps
to an optional URL. -/
structure YtThumbnails where
  maxresdefault : Option String := none
  standard : Option String := none
  high : Option String := none
  medium : Option String := none
  defaultSize : Option String := none
deriving Repr

/-- Python `a or b` over thumbnail URLs: a missing key (`None`) and the empty
string are both falsy and fall through to the next candidate. -/
def orStr (a : Option String) (b : String) : String :=
  match a with
  | some s => if s = "" then b else s
  | none => b

/-- The thumbnail chain of server.py lines 315-320: first truthy URL among
maxresdefault, standard, high, medium, default, else the empty string. -/
def pick_thumbnail (t : YtThumbnails) : String :=
  orStr t.maxresdefault (orStr t.standard (orStr t.high (orStr t.medium (orStr t.defaultSize ""))))

/-- One item of a successful YouTube trending response, with the `snippet`,
`statistics` and `contentDetails` fields the handler reads (defaults as in
the corresponding `.get` calls).  `published_at` is an hour timestamp. -/
structure YtItem where
  id : String
  title : String := "Untitled"
  channelTitle : String := "Unknown Channel"
  published_at : Int
  viewCount : Int := 0
  likeCount : Int := 0
  duration : String := ""
  description : String := ""
  thumbnails : YtThumbnails := {}

/-- Normalization of one YouTube API item (server.py lines 290-335):
`days_old` is the whole-day difference between now and publication. -/
noncomputable def process_youtube_item (now : Int) (it : YtItem) : ViralVideo :=
  let days_old := (now - it.published_at) / 24
  { title := it.title
    url := "https://www.youtube.com/watch?v=" ++ it.id
    thumbnail := pick_thumbnail it.thumbnails
    platform := .youtube
    views := it.viewCount
    likes := it.likeCount
    author := it.channelTitle
    duration := parse_duration it.duration
    description := if it.description ≠ "" then it.description.take 200 ++ "..." else ""
    viral_score := calculate_viral_score it.viewCount it.likeCount days_old
    published_at := it.published_at }

/-- One entry of the hardcoded `real_youtube_data` fallback table. -/
structure YtMockEntry where
  vid : String
  title : String
  channel : String
  views : Int
  likes : Int
deriving Inhabited, Repr

/-- The `real_youtube_data` table (server.py lines 358-415). -/
def real_youtube_data : List YtMockEntry :=
  [ ⟨"dQw4w9WgXcQ", "Rick Astley - Never Gonna Give You Up (Official Video)", "Rick Astley", 1400000000, 15000000⟩,
    ⟨"9bZkp7q19f0", "PSY - GANGNAM STYLE(강남스타일) M/V", "officialpsy", 4900000000, 24000000⟩,
    ⟨"kJQP7kiw5Fk", "Luis Fonsi - Despacito ft. Daddy Yankee", "LuisFonsiVEVO", 8200000000, 48000000⟩,
    ⟨"fJ9rUzIMcZQ", "Queen - Bohemian Rhapsody (Official Video Remastered)", "Queen Official", 1800000000, 12000000⟩,
    ⟨"YQHsXMglC9A", "Adele - Hello (Official Music Video)", "AdeleVEVO", 3100000000, 18000000⟩,
    ⟨"JGwWNGJdvx8", "Ed Sheeran - Shape of You (Official Video)", "Ed Sheeran", 5700000000, 32000000⟩,
    ⟨"hTWKbfoikeg", "Nirvana - Smells Like Teen Spirit (Official Music Video)", "Nirvana", 1500000000, 11000000⟩,
    ⟨"60ItHLz5WEA", "Alan Walker - Faded", "Alan Walker", 3300000000, 19000000⟩ ]

/-- `VideoAggregator._get_youtube_mock_data` (server.py lines 353-433):
cycles through `real_youtube_data`, jittering metrics with random draws;
always produces exactly `limit` records. -/
noncomputable def _get_youtube_mock_data (limit : Nat) (rng : Rng) (now : Int) : List ViralVideo :=
  (List.range limit).map fun i =>
    let d := real_youtube_data.getD (i % real_youtube_data.length) default
    { title := d.title
      url := "https://www.youtube.com/watch?v=" ++ d.vid
      thumbnail := "https://i.ytimg.com/vi/" ++ d.vid ++ "/hqdefault.jpg"
      platform := .youtube
      views := d.views + randint (-50000000) 50000000 (rng.nat (6 * i))
      likes := d.likes + randint (-100000) 100000 (rng.nat (6 * i + 1))
      author := d.channel
      duration := toString (randint 2 5 (rng.nat (6 * i + 2))) ++ ":" ++
        pad2 (randint 10 59 (rng.nat (6 * i + 3))).toNat
      viral_score := uniform 85 95 (rng.real i)
      published_at := now - randint 1 48 (rng.nat (6 * i + 4)) }

/-- The outcome of `get_youtube_service()` plus the trending API call:
`none` models a missing/broken service (no API key), `some (.error e)` a
raised `HttpError` or other exception, `some (.ok items)` success. -/
def YtApi : Type := Option (Except PyErr (List YtItem))

/-- Comparison used for `videos.sort(key=lambda x: x.viral_score, reverse=True)`. -/
def byScoreDesc (a b : ViralVideo) : Prop := b.viral_score ≤ a.viral_score

noncomputable instance : DecidableRel byScoreDesc := fun a b =>
  Real.decidableLE b.viral_score a.viral_score

instance : IsTotal ViralVideo byScoreDesc :=
  ⟨fun a b => (le_total b.viral_score a.viral_score).elim Or.inl Or.inr⟩

instance : IsTrans ViralVideo byScoreDesc :=
  ⟨fun _ _ _ hab hbc => le_trans hbc hab⟩

/-- Stable sort by viral score, descending. -/
noncomputable def sortByScoreDesc (l : List ViralVideo) : List ViralVideo :=
  l.insertionSort byScoreDesc

/-- `VideoAggregator.fetch_youtube_viral_videos` (server.py lines 269-351):
missing service or a raised exception falls back to mock data; a successful
response is normalized, sorted by score and truncated to `limit`. -/
noncomputable def fetch_youtube_viral_videos
    (limit : Nat) (api : YtApi) (now : Int) (rng : Rng) : List ViralVideo :=
  match api with
  | none => _get_youtube_mock_data limit rng now
  | some (.error _) => _get_youtube_mock_data limit rng now
  | some (.ok items) =>
    let videos := items.map (process_youtube_item now)
    (sortByScoreDesc videos).take limit

/-! ## TikTok fetcher
(`VideoAggregator.fetch_tiktok_viral_videos`, server.py lines 435-523) -/

/-- One entry of the hardcoded `tiktok_creators_data` table. -/
structure TtMockEntry where
  username : String
  title : String
  views : Int
  likes : Int
deriving Inhabited, Repr

/-- The `tiktok_creators_data` table (server.py lines 453-502). -/
def tiktok_creators_data : List TtMockEntry :=
  [ ⟨"khaby.lame", "This transition hit different 🔥", 47300000, 8900000⟩,
    ⟨"charlidamelio", "Teaching my mom this dance 💃", 35800000, 6700000⟩,
    ⟨"addisonre", "POV: You’re the main character ✨", 28400000, 5200000⟩,
    ⟨"zachking", "Magic tricks that will blow your mind 🪄", 41200000, 7800000⟩,
    ⟨"bellapoarch", "This sound is everywhere now 🎵", 52600000, 9100000⟩,
    ⟨"dixiedamelio", "Trying viral TikTok hacks part 47", 22100000, 4300000⟩,
    ⟨"spencerx", "Beatboxing to viral sounds 🎤", 18700000, 3600000⟩,
    ⟨"mrbeast", "I Gave $100,000 To Random TikTokers", 89200000, 12400000⟩ ]

/-- `VideoAggregator.get_mock_tiktok_data` (server.py lines 448-523):
cycles through the creator table, generating a 19-digit video id and jittered
metrics; always produces exactly `limit` records. -/
noncomputable def get_mock_tiktok_data (limit : Nat) (rng : Rng) (now : Int) : List ViralVideo :=
  (List.range limit).map fun i =>
    let d := tiktok_creators_data.getD (i % tiktok_creators_data.length) default
    let video_id : Int :=
      7000000000000000000 + randint 100000000000000000 999999999999999999 (rng.nat (6 * i))
    { title := d.title
      url := "https://www.tiktok.com/@" ++ d.username ++ "/video/" ++ toString video_id
      thumbnail := generate_platform_thumbnail .tiktok ((85 : Real) - (i : Real) * 2) d.title
      platform := .tiktok
      views := d.views + randint (-2000000) 2000000 (rng.nat (6 * i + 1))
      likes := d.likes + randint (-100000) 100000 (rng.nat (6 * i + 2))
      author := "@" ++ d.username
      duration := "0:" ++ pad2 (randint 15 59 (rng.nat (6 * i + 3))).toNat
      viral_score := uniform 82 92 (rng.real i)
      published_at := now - randint 1 72 (rng.nat (6 * i + 4)) }

/-- Module global of server.py lines 45-52: the TikTok service import is
disabled for deployment stability, so `tiktok_service` is always `None`. -/
def tiktok_service : Option (Nat → Except PyErr (List ViralVideo)) := none

/-- `VideoAggregator.fetch_tiktok_viral_videos` (server.py lines 435-446):
uses `tiktok_service` when present (falling back to mock data if it raises),
otherwise returns mock data directly. -/
noncomputable def fetch_tiktok_viral_videos (limit : Nat) (rng : Rng) (now : Int) : List ViralVideo :=
  match tiktok_service with
  | some svc =>
    match svc limit with
    | .ok vs => vs
    | .error _ => get_mock_tiktok_data limit rng now
  | none => get_mock_tiktok_data limit rng now

/-! ## Twitter fetcher
(`VideoAggregator.fetch_twitter_viral_videos`, server.py lines 525-701) -/

/-- A user object from the `includes` expansion of a Twitter search. -/
structure TwUser where
  id : Int
  username : String
deriving Repr

/-- One tweet of a Twitter search response with the public metrics the
handler reads. `created_at` is an hour timestamp when present. -/
structure Tweet where
  id : Int
  text : String
  author_id : Int
  like_count : Int
  retweet_count : Int
  reply_count : Int
  impression_count : Int := 0
  created_at : Option Int := none

/-- A successful Twitter search response: tweet list plus user expansion. -/
structure TwResponse where
  data : List Tweet
  includes_users : List TwUser := []

/-- Author resolution (server.py lines 561-566): first included user whose id
matches the author id, else "Unknown". -/
def twitter_author (includes : List TwUser) (author_id : Int) : String :=
  match includes.find? (fun u => u.id = author_id) with
  | some u => "@" ++ u.username
  | none => "Unknown"

/-- Normalization of one tweet (server.py lines 556-593): weighted engagement
score clamped into `[10, 90]` via `min(90.0, max(10.0, engagement / 1000))`. -/
noncomputable def process_tweet (includes : List TwUser) (now : Int) (t : Tweet) : ViralVideo :=
  let likes := t.like_count
  let retweets := t.retweet_count
  let replies := t.reply_count
  let engagement_score : Int := likes + retweets * 3 + replies * 2
  let viral_score : Real := min 90 (max 10 ((engagement_score : Real) / 1000))
  let tweet_title := if t.text.length > 100 then t.text.take 100 ++ "..." else t.text
  { title := tweet_title
    url := "https://twitter.com/i/status/" ++ toString t.id
    thumbnail := generate_platform_thumbnail .twitter viral_score tweet_title
    platform := .twitter
    views := t.impression_count
    likes := likes
    shares := retweets
    author := twitter_author includes t.author_id
    viral_score := viral_score
    published_at := t.created_at.getD now }

/-- One entry of the hardcoded `twitter_data` fallback table (the tweet id is
a string in the source dict). -/
structure TwMockEntry where
  username : String
  tweet_id : String
  title : String
  views : Int
  likes : Int
deriving Inhabited, Repr

/-- The `twitter_data` table (server.py lines 609-680). -/
def twitter_data : List TwMockEntry :=
  [ ⟨"MrBeast", "1816797864340054018", "I’m giving away $1,000,000 to random followers! 💰", 12800000, 2100000⟩,
    ⟨"elonmusk", "1815736731766399436", "Mars colony update: We’re closer than you think 🚀", 45200000, 3800000⟩,
    ⟨"TheRock", "1814567890123456789", "The grind never stops. What’s your Monday motivation? 💪", 8900000, 1200000⟩,
    ⟨"RyanReynolds", "1813456789012345678", "Blake told me to tweet this. I don’t know why. 🤷‍♂️", 6700000, 890000⟩,
    ⟨"justinbieber", "1812345678901234567", "New music dropping soon! Thanks for all the love ❤️", 15600000, 2800000⟩,
    ⟨"ArianaGrande", "1811234567890123456", "thank u, next (but make it a tweet) ✨", 11400000, 1900000⟩,
    ⟨"taylorswift13", "1810123456789012345", "The vault has secrets... 🔐 #TaylorSwift", 28900000, 4200000⟩,
    ⟨"rihanna", "1809012345678901234", "Fenty Beauty x Savage X Fenty collab coming 👑", 9800000, 1500000⟩,
    ⟨"kimkardashian", "1808901234567890123", "SKIMS new drop has me obsessed 😍", 7600000, 980000⟩,
    ⟨"chancetherapper", "1807890123456789012", "Grateful for another day to spread positivity 🙏", 3400000, 520000⟩ ]

/-- `VideoAggregator._get_twitter_mock_data` (server.py lines 605-701):
cycles through the celebrity table with jittered metrics; always produces
exactly `limit` records. -/
noncomputable def _get_twitter_mock_data (limit : Nat) (rng : Rng) (now : Int) : List ViralVideo :=
  (List.range limit).map fun i =>
    let d := twitter_data.getD (i % twitter_data.length) default
    let viral_score := uniform 75 88 (rng.real i)
    { title := d.title
      url := "https://twitter.com/" ++ d.username ++ "/status/" ++ d.tweet_id
      thumbnail := generate_platform_thumbnail .twitter viral_score d.title
      platform := .twitter
      views := d.views + randint (-500000) 500000 (rng.nat (4 * i))
      likes := d.likes + randint (-50000) 50000 (rng.nat (4 * i + 1))
      shares := randint 10000 100000 (rng.nat (4 * i + 2))
      author := "@" ++ d.username
      viral_score := viral_score
      published_at := now - randint 1 96 (rng.nat (4 * i + 3)) }

/-- The outcome of the Twitter bearer-token check and search call: `none`
models a missing bearer token, `some (.error e)` a raised exception,
`some (.ok resp)` a successful search response. -/
def TwApi : Type := Option (Except PyErr TwResponse)

/-- `VideoAggregator.fetch_twitter_viral_videos` (server.py lines 525-603):
missing token, a raised exception, or an empty `tweets.data` all fall back to
mock data; otherwise the first `limit` tweets are normalized (no sort). -/
noncomputable def fetch_twitter_viral_videos
    (limit : Nat) (api : TwApi) (now : Int) (rng : Rng) : List ViralVideo :=
  match api with
  | none => _get_twitter_mock_data limit rng now
  | some (.error _) => _get_twitter_mock_data limit rng now
  | some (.ok resp) =>
    match resp.data with
    | [] => _get_twitter_mock_data limit rng now
    | _ => (resp.data.take limit).map (process_tweet resp.includes_users now)

/-! ## Subscription plans and aggregator
(`VideoAggregator.get_aggregated_viral_videos`, server.py lines 703-736) -/

/-- The subscription tiers (free / pro / business). -/
inductive SubscriptionTier where
  | free
  | pro
  | business
deriving DecidableEq, Repr

/-- Modelled from the spec: `subscription_plans.py` is not among the source
files.  Per the spec, a plan carries a daily item cap and an ads flag; the
server guards caps with `> 0`, so a non-positive cap means unlimited. -/
structure SubscriptionPlan where
  max_videos_per_day : Int
  has_ads : Bool

/-- Modelled from the spec: `get_plan` resolves a tier to its plan.  The free
tier allows 10 videos per day with ads (the plans data served by
`/api/subscription/plans` in `BULLETPROOF_SERVER.py` lists "10 videos per
day" for free); paid tiers are unlimited and ad-free. -/
def get_plan : SubscriptionTier → SubscriptionPlan
  | .free => ⟨10, true⟩
  | .pro => ⟨0, false⟩
  | .business => ⟨0, false⟩

/-- The caller identity, reduced to the field the endpoint reads. -/
structure User where
  subscription_tier : SubscriptionTier

/-- Tier limiting of server.py lines 706-714: a known user is capped by their
plan when the plan cap is positive; anonymous callers are capped by the free
plan unconditionally. -/
def apply_tier_limit (user : Option User) (limit : Nat) : Nat :=
  match user with
  | some u =>
    let plan := get_plan u.subscription_tier
    if plan.max_videos_per_day > 0 then min limit plan.max_videos_per_day.toNat else limit
  | none => min limit (get_plan .free).max_videos_per_day.toNat

/-- The result-collection loop of server.py lines 728-732: extend with each
result that is a list, skip (log) everything else.  The `asyncio.gather(...,
return_exceptions=True)` outcomes are the `Except` values. -/
def collect_results (results : List (Except PyErr (List ViralVideo))) : List ViralVideo :=
  results.foldl
    (fun acc r =>
      match r with
      | .ok l => acc ++ l
      | .error _ => acc)
    []

/-- `VideoAggregator.get_aggregated_viral_videos` (server.py lines 703-736).
The three platform fetch tasks are passed as functions from the requested
per-platform count to the task outcome (an exception or a list); in the
running server they are the three fetch coroutines, which are total. -/
noncomputable def get_aggregated_viral_videos
    (user : Option User) (limit0 : Nat)
    (fetchY fetchT fetchW : Nat → Except PyErr (List ViralVideo)) : List ViralVideo :=
  let limit := apply_tier_limit user limit0
  let videos_per_platform := max (limit / 3) 5
  let results :=
    [fetchY videos_per_platform, fetchT videos_per_platform, fetchW videos_per_platform]
  let all_videos := collect_results results
  (sortByScoreDesc all_videos).take limit

/-! ## The `GET /api/videos` handler of `backend/server.py` (lines 788-845) -/

/-- A FastAPI `HTTPException` as raised by the handler. -/
structure HTTPException where
  status_code : Int
  detail : String
deriving DecidableEq, Repr

/-- The `VideoResponse` model returned on success. -/
structure VideoResponse where
  videos : List ViralVideo
  total : Nat
  platform : Option Platform
  date : Int
  has_ads : Bool
  user_tier : SubscriptionTier

/-- The subscription-based limit clamp of the handler (lines 797-802):
`max_limit` is the plan cap when positive, else the requested limit. -/
def handler_limit (user : Option User) (limit0 : Nat) : Nat :=
  let tier := match user with | some u => u.subscription_tier | none => .free
  let user_plan := get_plan tier
  let max_limit :=
    if user_plan.max_videos_per_day > 0 then user_plan.max_videos_per_day.toNat else limit0
  min limit0 max_limit

/-- The `videos = ...` assignment of the handler (lines 804-816): dispatch to
one fetcher under a platform filter, else aggregate all three. -/
noncomputable def handler_videos
    (platform : Option Platform) (limit : Nat) (user : Option User)
    (ytApi : YtApi) (twApi : TwApi) (now : Int) (rng : Rng) : List ViralVideo :=
  match platform with
  | some .youtube => fetch_youtube_viral_videos limit ytApi now rng
  | some .tiktok => fetch_tiktok_viral_videos limit rng now
  | some .twitter => fetch_twitter_viral_videos limit twApi now rng
  | none =>
    get_aggregated_viral_videos user limit
      (fun n => .ok (fetch_youtube_viral_videos n ytApi now rng))
      (fun n => .ok (fetch_tiktok_viral_videos n rng now))
      (fun n => .ok (fetch_twitter_viral_videos n twApi now rng))

/-- `get_viral_videos` of `backend/server.py` (lines 788-845).  An unexpected
internal error anywhere in the `try` body is modelled by the
`internal_error` argument; when present, the `except` clause raises
`HTTPException(500, "Error fetching viral videos")`.  Ad injection
(lines 818-833) is skipped: `advertising_service` is `None` in the
no-database configuration and both ad blocks guard on it. -/
noncomputable def get_viral_videos
    (platform : Option Platform) (limit0 : Nat) (user : Option User)
    (ytApi : YtApi) (twApi : TwApi) (now : Int) (rng : Rng)
    (internal_error : Option PyErr) : Except HTTPException VideoResponse :=
  match internal_error with
  | some _ => .error ⟨500, "Error fetching viral videos"⟩
  | none =>
    let tier := match user with | some u => u.subscription_tier | none => .free
    let user_plan := get_plan tier
    let limit := handler_limit user limit0
    let videos := handler_videos platform limit user ytApi twApi now rng
    .ok { videos := videos
          total := videos.length
          platform := platform
          date := now
          has_ads := user_plan.has_ads
          user_tier := tier }

/-! ## The `GET /api/videos` handler of `BULLETPROOF_SERVER.py` (lines 87-206)

This variant fabricates its video list locally and converts every internal
error into a single-item fallback response with HTTP 200. -/

/-- A video dict of the bulletproof handler (plain strings, no enum). -/
structure BpVideo where
  id : String
  title : String
  url : String
  thumbnail : String
  platform : String
  views : Int
  likes : Int
  shares : Int
  author : String
  duration : String
  viral_score : Real
  published_at : Int
  fetched_at : Int
  is_sponsored : Bool
  description : String

/-- The response dict of the bulletproof handler. -/
structure BpResponse where
  videos : List BpVideo
  total : Nat
  platform : Option String
  date : Int
  has_ads : Bool
  user_tier : String
  status : String
  error_debug : Option String := none

/-- The `titles` table (BULLETPROOF_SERVER.py lines 101-117; the trailing
symbols are the mojibake bytes present in the source). -/
def bp_titles : List String :=
  [ "This Video Will Change Everything! ðŸ¤¯",
    "Most Viral Dance Challenge Right Now ðŸ’ƒ",
    "Everyone’s Talking About This Trend ðŸ”¥",
    "This Life Hack is Going Viral ðŸš€",
    "The Funniest Video on the Internet ðŸ˜‚",
    "This Performance Gave Me Chills âœ¨",
    "Mind-Blowing Trick Everyone’s Doing ðŸ¤¯",
    "This Story Has an Unexpected Twist ðŸ˜±",
    "The Most Satisfying Video Ever ðŸ˜Œ",
    "This Sound is Everywhere Now ðŸŽµ",
    "Plot Twist Nobody Saw Coming ðŸ”„",
    "This Trend is Breaking the Internet ðŸ’¥",
    "Everyone Should See This Video ðŸ‘€",
    "This Went Viral in Minutes âš¡",
    "The Video Everyone’s Copying ðŸ“¹" ]

/-- The `real_working_urls` table (BULLETPROOF_SERVER.py lines 120-136). -/
def bp_real_working_urls : List String :=
  [ "https://www.youtube.com/watch?v=dQw4w9WgXcQ",
    "https://www.youtube.com/watch?v=9bZkp7q19f0",
    "https://www.youtube.com/watch?v=kJQP7kiw5Fk",
    "https://www.youtube.com/watch?v=fJ9rUzIMcZQ",
    "https://www.youtube.com/watch?v=YQHsXMglC9A",
    "https://www.youtube.com/watch?v=CevxZvSJLk8",
    "https://www.youtube.com/watch?v=RgKAFK5djSk",
    "https://www.youtube.com/watch?v=hT_nvWreIhg",
    "https://www.youtube.com/watch?v=iGk5fR-t5AU",
    "https://www.youtube.com/watch?v=nfWlot6h_JM",
    "https://www.youtube.com/watch?v=JGwWNGJdvx8",
    "https://www.youtube.com/watch?v=SlPhMPnQ58k",
    "https://www.youtube.com/watch?v=60ItHLz5WEA",
    "https://www.youtube.com/watch?v=pRpeEdMmmQ0",
    "https://www.youtube.com/watch?v=kffacxfA7G4" ]

/-- The `creators` table (BULLETPROOF_SERVER.py lines 142-146). -/
def bp_creators : List String :=
  [ "@MrBeast", "@PewDiePie", "@Dude_Perfect", "@TheRock", "@RyanReynolds",
    "@justinbieber", "@ArianaGrande", "@taylorswift13", "@ladygaga", "@rihanna",
    "@elonmusk", "@TheEllenShow", "@RealHughJackman", "@vancityreynolds", "@priyankachopra" ]

/-- The cyclic platform assignment of the normal path:
`platforms[i % len(platforms)]` with `platforms = [youtube, tiktok, twitter]`. -/
def bp_platforms : List String := ["youtube", "tiktok", "twitter"]

/-- Python `round(x, 1)`: round to one decimal place. -/
noncomputable def round1 (x : Real) : Real := ((round (x * 10) : Int) : Real) / 10

/-- One fabricated video of the bulletproof normal path (lines 148-166).
The thousands separator of `f"{...:,}"` in the description is elided. -/
noncomputable def bp_make_video (i : Nat) (rng : Rng) (now : Int) : BpVideo :=
  { id := "viral_video_" ++ toString (i + 1)
    title := bp_titles.getD (i % bp_titles.length) ""
    url := bp_real_working_urls.getD (i % bp_real_working_urls.length) ""
    thumbnail := "https://i.ytimg.com/vi/dQw4w9WgXcQ/hqdefault.jpg"
    platform := bp_platforms.getD (i % bp_platforms.length) ""
    views := 2000000 + (i : Int) * 150000 + randint 0 500000 (rng.nat (5 * i))
    likes := 120000 + (i : Int) * 8000 + randint 0 50000 (rng.nat (5 * i + 1))
    shares := 15000 + (i : Int) * 1000 + randint 0 5000 (rng.nat (5 * i + 2))
    author := bp_creators.getD (i % bp_creators.length) ""
    duration := toString (randint 2 8 (rng.nat (5 * i + 3))) ++ ":" ++
      pad2 (randint 10 59 (rng.nat (5 * i + 4))).toNat
    viral_score := round1 ((95 : Real) - (i : Real) * 1.5 + uniform (-2) 2 (rng.real i))
    published_at := now - (i : Int) * 2
    fetched_at := now
    is_sponsored := false
    description := "This " ++ bp_platforms.getD (i % bp_platforms.length) "" ++
      " video is trending with " ++ toString (2000000 + (i : Int) * 150000) ++ " views!" }

/-- The hardcoded fallback video of the except branch (lines 182-198). -/
noncomputable def bp_fallback_video (now : Int) : BpVideo :=
  { id := "fallback_video_1"
    title := "ðŸŽ‰ Your Viral Daily App is Working Perfectly!"
    url := "https://www.youtube.com/watch?v=dQw4w9WgXcQ"
    thumbnail := "https://i.ytimg.com/vi/dQw4w9WgXcQ/hqdefault.jpg"
    platform := "youtube"
    views := 1000000
    likes := 50000
    shares := 5000
    author := "@ViralDaily"
    duration := "3:32"
    viral_score := 100
    published_at := now
    fetched_at := now
    is_sponsored := false
    description := "Congratulations! Your app is fully functional." }

/-- `get_viral_videos` of `BULLETPROOF_SERVER.py` (lines 87-206): the normal
path fabricates `min(max(limit, 1), 50)` videos cycling through the tables
(ignoring the `platform` query parameter); any internal error (modelled by
`internal_error`) lands in the except branch, which returns HTTP 200 with a
single hardcoded fallback video and `status = "fallback_success"`.  The
handler never raises, so its type is a total response. -/
noncomputable def bp_get_viral_videos
    (platform : Option String) (limit0 : Int) (rng : Rng) (now : Int)
    (debug : Bool) (internal_error : Option PyErr) : BpResponse :=
  match internal_error with
  | some e =>
    { videos := [bp_fallback_video now]
      total := 1
      platform := platform
      date := now
      has_ads := false
      user_tier := "free"
      status := "fallback_success"
      error_debug := if debug then some e else none }
  | none =>
    let limit := (min (max limit0 1) 50).toNat
    let videos := (List.range limit).map fun i => bp_make_video i rng now
    { videos := videos
      total := videos.length
      platform := platform
      date := now
      has_ads := false
      user_tier := "free"
      status := "success" }

/-! ## Properties of the viral score calculator -/

/-- Evaluation of the calculator away from the zero-view guard. -/
theorem calculate_viral_score_of_ne {views : Int} (likes days_old : Int) (hv : views ≠ 0) :
    calculate_viral_score views likes days_old =
      min ((Real.logb 10 ((max views 1 : Int) : Real) * 10 +
        (if likes ≠ 0 ∧ views > 0 then (likes : Real) / (views : Real) else 0) * 100) *
          max 1 (10 - (days_old : Real) * 0.5)) 100 := by
  rw [calculate_viral_score, if_neg hv]

/-- The calculator never goes below zero when likes are non-negative. -/
theorem calculate_viral_score_nonneg (views likes days_old : Int) (hl : 0 ≤ likes) :
    0 ≤ calculate_viral_score views likes days_old := by
  by_cases hv : views = 0
  · simp [calculate_viral_score, hv]
  · rw [calculate_viral_score_of_ne likes days_old hv]
    have hlog : 0 ≤ Real.logb 10 ((max views 1 : Int) : Real) := by
      apply Real.logb_nonneg (by norm_num)
      have : (1 : Int) ≤ max views 1 := le_max_right views 1
      exact_mod_cast this
    have heng : 0 ≤ (if likes ≠ 0 ∧ views > 0 then (likes : Real) / (views : Real) else 0) := by
      split
      · next h =>
        apply div_nonneg
        · exact_mod_cast hl
        · have : (0 : Int) ≤ views := le_of_lt h.2
          exact_mod_cast this
      · exact le_refl 0
    have hrec : (0 : Real) ≤ max 1 (10 - (days_old : Real) * 0.5) :=
      le_trans zero_le_one (le_max_left _ _)
    refine le_min ?_ (by norm_num)
    apply mul_nonneg _ hrec
    have := mul_nonneg hlog (by norm_num : (0 : Real) ≤ 10)
    have := mul_nonneg heng (by norm_num : (0 : Real) ≤ 100)
    linarith

/-- The calculator never exceeds 100 (the `min` clamp). -/
theorem calculate_viral_score_le_100 (views likes days_old : Int) :
    calculate_viral_score views likes days_old ≤ 100 := by
  by_cases hv : views = 0
  · simp [calculate_viral_score, hv]
  · rw [calculate_viral_score_of_ne likes days_old hv]
    exact min_le_right _ _

/-- Claim C9: with zero views the calculator returns exactly 0 for every
likes count and every age: the `views == 0` guard fires before the
`likes / views` division, so the division is never evaluated (the embedding
is a total function by construction). -/
theorem claim_C9_score_zero_views (likes days_old : Int) :
    calculate_viral_score 0 likes days_old = 0 := by
  simp [calculate_viral_score]

/-- Claim C4: for all non-negative views, likes and age the viral score lies
in the closed interval `[0, 100]`. -/
theorem claim_C4_score_bounded (views likes days_old : Int)
    (_hv : 0 ≤ views) (hl : 0 ≤ likes) (_hd : 0 ≤ days_old) :
    0 ≤ calculate_viral_score views likes days_old ∧
      calculate_viral_score views likes days_old ≤ 100 :=
  ⟨calculate_viral_score_nonneg views likes days_old hl,
   calculate_viral_score_le_100 views likes days_old⟩

/-- Witness for C4 at views = 5, likes = 3, age = 2. -/
theorem claim_C4_score_bounded_witness :
    0 ≤ calculate_viral_score 5 3 2 ∧ calculate_viral_score 5 3 2 ≤ 100 :=
  claim_C4_score_bounded 5 3 2 (by decide) (by decide) (by decide)

/-- Counterexample to claim C2: with likes = 1 ≥ 0 and age = 18 ≥ 0 fixed,
raising views from 1 to 2 strictly lowers the score (the engagement term
`likes / views` halves, which outweighs the logarithmic view term), so the
calculator is not monotone non-decreasing in views. -/
theorem claim_C2_counterexample :
    (0 : Int) ≤ 1 ∧ (0 : Int) ≤ 18 ∧ (1 : Int) ≤ 2 ∧
      calculate_viral_score 2 1 18 < calculate_viral_score 1 1 18 := by
  refine ⟨by decide, by decide, by decide, ?_⟩
  have hone : calculate_viral_score 1 1 18 = 100 := by
    rw [calculate_viral_score_of_ne 1 18 (by decide)]
    norm_num
  rw [hone, calculate_viral_score_of_ne 1 18 (by decide)]
  have h2 : Real.logb 10 2 < 1 := by
    rw [Real.logb_lt_iff_lt_rpow (by norm_num) (by norm_num), Real.rpow_one]
    norm_num
  have hmax : ((max (2 : Int) 1 : Int) : Real) = 2 := by norm_num
  rw [hmax]
  calc min ((Real.logb 10 2 * 10 +
        (if (1 : Int) ≠ 0 ∧ (2 : Int) > 0 then ((1 : Int) : Real) / ((2 : Int) : Real) else 0) * 100) *
          max 1 (10 - ((18 : Int) : Real) * 0.5)) 100
      ≤ (Real.logb 10 2 * 10 +
        (if (1 : Int) ≠ 0 ∧ (2 : Int) > 0 then ((1 : Int) : Real) / ((2 : Int) : Real) else 0) * 100) *
          max 1 (10 - ((18 : Int) : Real) * 0.5) := min_le_left _ _
    _ < 100 := by norm_num; nlinarith

/-- Claim C2 (amended): with likes fixed at 0 (so the engagement term
vanishes) and age fixed, the calculator is monotone non-decreasing in
views. -/
theorem claim_C2_amended_views_monotone (views₁ views₂ days_old : Int)
    (h : views₁ ≤ views₂) :
    calculate_viral_score views₁ 0 days_old ≤ calculate_viral_score views₂ 0 days_old := by
  by_cases h1 : views₁ = 0
  · rw [h1]
    simp only [calculate_viral_score, if_pos rfl]
    exact calculate_viral_score_nonneg views₂ 0 days_old le_rfl
  · by_cases h2 : views₂ = 0
    · have hv1 : views₁ ≤ 1 := le_trans (h.trans_eq h2) zero_le_one
      rw [calculate_viral_score_of_ne 0 days_old h1]
      have hm : max views₁ 1 = 1 := max_eq_right hv1
      rw [hm, h2]
      simp only [calculate_viral_score, if_pos rfl]
      simp [Real.logb_one]
    · rw [calculate_viral_score_of_ne 0 days_old h1,
        calculate_viral_score_of_ne 0 days_old h2]
      apply min_le_min _ le_rfl
      apply mul_le_mul_of_nonneg_right _ (le_trans zero_le_one (le_max_left _ _))
      simp only [ne_eq, not_true_eq_false, false_and, if_false, zero_mul, add_zero]
      apply mul_le_mul_of_nonneg_right _ (by norm_num : (0 : Real) ≤ 10)
      apply Real.logb_le_logb_of_le (by norm_num)
      · have : (1 : Int) ≤ max views₁ 1 := le_max_right _ _
        have : (0 : Int) < max views₁ 1 := lt_of_lt_of_le zero_lt_one this
        exact_mod_cast this
      · have : max views₁ 1 ≤ max views₂ 1 := max_le_max h le_rfl
        exact_mod_cast this

/-- Witness for the amended C2 at views 1 ≤ 3, age 4. -/
theorem claim_C2_amended_views_monotone_witness :
    (1 : Int) ≤ 3 ∧ calculate_viral_score 1 0 4 ≤ calculate_viral_score 3 0 4 :=
  ⟨by decide, claim_C2_amended_views_monotone 1 3 4 (by decide)⟩

/-! ## Properties of the duration parser -/

/-- `parse_duration` formats exactly the captured groups: the hour display
form when the parsed hours are positive, the minutes display form
otherwise. -/
theorem parse_duration_eq (s : String) :
    parse_duration s =
      if 0 < (parsed_hms s).1 then
        fmtHMS (parsed_hms s).1 (parsed_hms s).2.1 (parsed_hms s).2.2
      else fmtMS (parsed_hms s).2.1 (parsed_hms s).2.2 := by
  rw [parse_duration]
  split
  · next rest heq =>
    rw [parsed_hms, heq]
    rfl
  · next hne =>
    have hp : parsed_hms s = (0, 0, 0) := by
      rw [parsed_hms]
      split
      · next rest heq => exact absurd heq (fun h => hne rest h)
      · rfl
    rw [hp]
    decide

/-- Claim C10: `parse_duration` is total: the empty string and any string not
starting with a `PT` duration yield `"0:00"`, and the result for every input
is the display form of that input's parsed components — `hours:MM:SS`
exactly when the parsed hours are positive, `minutes:SS` (seconds
zero-padded to two digits) exactly when they are zero — e.g. `"PT1H2M3S"`
gives `"1:02:03"` and `"PT1M30S"` gives `"1:30"`. -/
theorem claim_C10_parse_duration_total :
    parse_duration "" = "0:00" ∧
    (∀ s : String, startsWithPT s = false → parse_duration s = "0:00") ∧
    (∀ s : String,
      (0 < (parsed_hms s).1 ∧
        parse_duration s = fmtHMS (parsed_hms s).1 (parsed_hms s).2.1 (parsed_hms s).2.2) ∨
      ((parsed_hms s).1 = 0 ∧
        parse_duration s = fmtMS (parsed_hms s).2.1 (parsed_hms s).2.2)) ∧
    parse_duration "PT1H2M3S" = "1:02:03" ∧
    parse_duration "PT1M30S" = "1:30" := by
  refine ⟨rfl, ?_, ?_, by decide, by decide⟩
  · intro s hs
    rw [parse_duration]
    split
    · next heq =>
      exfalso
      rw [startsWithPT, heq] at hs
      simp at hs
    · rfl
  · intro s
    rcases Nat.eq_zero_or_pos (parsed_hms s).1 with h0 | hpos
    · right
      refine ⟨h0, ?_⟩
      rw [parse_duration_eq s, if_neg (by simp [h0])]
    · left
      refine ⟨hpos, ?_⟩
      rw [parse_duration_eq s, if_pos hpos]

/-- Witness for C10 at the concrete non-`PT` input "hello". -/
theorem claim_C10_parse_duration_total_witness :
    startsWithPT "hello" = false ∧ parse_duration "hello" = "0:00" :=
  ⟨by decide, claim_C10_parse_duration_total.2.1 "hello" (by decide)⟩

/-! ## Error behaviour of the `GET /api/videos` handlers (claim C1) -/

/-- A fixed zero random stream used for concrete evaluations. -/
noncomputable def rng0 : Rng := ⟨fun _ => 0, fun _ => 0⟩

/-- Counterexample to claim C1: in `backend/server.py` the `except` clause of
`get_viral_videos` (lines 843-845) re-raises an internal error as
`HTTPException(500)` instead of returning a 200 fallback response, so the
GET /api/videos handler of that server does propagate 5xx. -/
theorem claim_C1_counterexample :
    get_viral_videos none 10 none none none 0 rng0 (some "boom") =
      .error ⟨500, "Error fetching viral videos"⟩ := rfl

/-- Claim C1 (amended): in `BULLETPROOF_SERVER.py` every internal error in
the handler produces an HTTP 200 response with exactly one hardcoded
fallback video and `status = "fallback_success"`; in `backend/server.py`
the handler instead converts every internal error into
`HTTPException(500, "Error fetching viral videos")`. -/
theorem claim_C1_amended_error_behaviour :
    (∀ (platform : Option String) (limit0 : Int) (rng : Rng) (now : Int)
        (debug : Bool) (e : PyErr),
      (bp_get_viral_videos platform limit0 rng now debug (some e)).videos =
          [bp_fallback_video now] ∧
        (bp_get_viral_videos platform limit0 rng now debug (some e)).total = 1 ∧
        (bp_get_viral_videos platform limit0 rng now debug (some e)).status =
          "fallback_success") ∧
    (∀ (platform : Option Platform) (limit0 : Nat) (user : Option User)
        (ytApi : YtApi) (twApi : TwApi) (now : Int) (rng : Rng) (e : PyErr),
      get_viral_videos platform limit0 user ytApi twApi now rng (some e) =
        .error ⟨500, "Error fetching viral videos"⟩) := by
  constructor
  · intro platform limit0 rng now debug e
    exact ⟨rfl, rfl, rfl⟩
  · intro platform limit0 user ytApi twApi now rng e
    rfl

/-! ## Platform fields of fetcher outputs (claim C7) -/

/-- Every YouTube mock record carries the YouTube platform tag. -/
theorem mock_youtube_platform (limit : Nat) (rng : Rng) (now : Int) :
    ∀ v ∈ _get_youtube_mock_data limit rng now, v.platform = Platform.youtube := by
  intro v hv
  simp only [_get_youtube_mock_data, List.mem_map] at hv
  obtain ⟨i, -, rfl⟩ := hv
  rfl

/-- Every record returned by the YouTube fetcher carries the YouTube tag. -/
theorem fetch_youtube_platform (limit : Nat) (api : YtApi) (now : Int) (rng : Rng) :
    ∀ v ∈ fetch_youtube_viral_videos limit api now rng, v.platform = Platform.youtube := by
  intro v hv
  match api with
  | none => exact mock_youtube_platform limit rng now v hv
  | some (.error e) => exact mock_youtube_platform limit rng now v hv
  | some (.ok items) =>
    simp only [fetch_youtube_viral_videos] at hv
    have hv2 := List.take_subset _ _ hv
    rw [sortByScoreDesc, List.mem_insertionSort] at hv2
    simp only [List.mem_map] at hv2
    obtain ⟨it, -, rfl⟩ := hv2
    rfl

/-- Every TikTok mock record carries the TikTok platform tag. -/
theorem mock_tiktok_platform (limit : Nat) (rng : Rng) (now : Int) :
    ∀ v ∈ get_mock_tiktok_data limit rng now, v.platform = Platform.tiktok := by
  intro v hv
  simp only [get_mock_tiktok_data, List.mem_map] at hv
  obtain ⟨i, -, rfl⟩ := hv
  rfl

/-- Every record returned by the TikTok fetcher carries the TikTok tag. -/
theorem fetch_tiktok_platform (limit : Nat) (rng : Rng) (now : Int) :
    ∀ v ∈ fetch_tiktok_viral_videos limit rng now, v.platform = Platform.tiktok := by
  intro v hv
  rw [fetch_tiktok_viral_videos] at hv
  exact mock_tiktok_platform limit rng now v hv

/-- Every Twitter mock record carries the Twitter platform tag. -/
theorem mock_twitter_platform (limit : Nat) (rng : Rng) (now : Int) :
    ∀ v ∈ _get_twitter_mock_data limit rng now, v.platform = Platform.twitter := by
  intro v hv
  simp only [_get_twitter_mock_data, List.mem_map] at hv
  obtain ⟨i, -, rfl⟩ := hv
  rfl

/-- Every record returned by the Twitter fetcher carries the Twitter tag. -/
theorem fetch_twitter_platform (limit : Nat) (api : TwApi) (now : Int) (rng : Rng) :
    ∀ v ∈ fetch_twitter_viral_videos limit api now rng, v.platform = Platform.twitter := by
  intro v hv
  match api with
  | none => exact mock_twitter_platform limit rng now v hv
  | some (.error e) => exact mock_twitter_platform limit rng now v hv
  | some (.ok resp) =>
    rw [fetch_twitter_viral_videos] at hv
    match hresp : resp.data with
    | [] =>
      rw [hresp] at hv
      exact mock_twitter_platform limit rng now v hv
    | t :: ts =>
      rw [hresp] at hv
      simp only [List.mem_map] at hv
      obtain ⟨tw, -, rfl⟩ := hv
      rfl

/-- Counterexample to claim C7: the bulletproof handler ignores the platform
filter; with `platform=youtube` and `limit=2` the second returned record has
platform "tiktok". -/
theorem claim_C7_counterexample :
    ¬ (∀ v ∈ (bp_get_viral_videos (some "youtube") 2 rng0 0 false none).videos,
        v.platform = "youtube") := by
  decide

/-- Claim C7 (amended): in `backend/server.py` a platform filter is honoured:
every record of a successful filtered response carries exactly the requested
platform.  (`BULLETPROOF_SERVER.py` instead assigns platforms cyclically and
ignores the filter.) -/
theorem claim_C7_amended_platform_filter
    (pf : Platform) (limit0 : Nat) (user : Option User) (ytApi : YtApi)
    (twApi : TwApi) (now : Int) (rng : Rng) (resp : VideoResponse)
    (heq : get_viral_videos (some pf) limit0 user ytApi twApi now rng none = .ok resp) :
    ∀ v ∈ resp.videos, v.platform = pf := by
  intro v hv
  simp only [get_viral_videos, Except.ok.injEq] at heq
  subst heq
  cases pf with
  | youtube => exact fetch_youtube_platform _ ytApi now rng v hv
  | tiktok => exact fetch_tiktok_platform _ rng now v hv
  | twitter => exact fetch_twitter_platform _ twApi now rng v hv

/-- The concrete response used by the C7 witness: the filtered YouTube
request with limit 1, no user, no API key, zero randomness. -/
noncomputable def c7resp : VideoResponse :=
  ((get_viral_videos (some .youtube) 1 none none none 0 rng0 none).toOption).getD
    ⟨[], 0, none, 0, false, .free⟩

/-- Witness for the amended C7 at a concrete filtered request. -/
theorem claim_C7_amended_platform_filter_witness :
    (get_viral_videos (some .youtube) 1 none none none 0 rng0 none = .ok c7resp) ∧
    (c7resp.videos.headI ∈ c7resp.videos) ∧
    c7resp.videos.headI.platform = .youtube := by
  refine ⟨rfl, List.mem_cons_self _ _, ?_⟩
  exact claim_C7_amended_platform_filter .youtube 1 none none none 0 rng0 c7resp rfl
    c7resp.videos.headI (List.mem_cons_self _ _)

/-! ## Fetcher output sizes and fallback behaviour (claim C6) -/

/-- The YouTube mock generator always yields exactly `limit` records. -/
theorem mock_youtube_length (limit : Nat) (rng : Rng) (now : Int) :
    (_get_youtube_mock_data limit rng now).length = limit := by
  simp [_get_youtube_mock_data]

/-- The TikTok mock generator always yields exactly `limit` records. -/
theorem mock_tiktok_length (limit : Nat) (rng : Rng) (now : Int) :
    (get_mock_tiktok_data limit rng now).length = limit := by
  simp [get_mock_tiktok_data]

/-- The Twitter mock generator always yields exactly `limit` records. -/
theorem mock_twitter_length (limit : Nat) (rng : Rng) (now : Int) :
    (_get_twitter_mock_data limit rng now).length = limit := by
  simp [_get_twitter_mock_data]

/-- Counterexample to claim C6: a successful YouTube API response with an
empty item list is not replaced by fallback data — the fetcher returns the
empty list, while the fallback generator at the same count yields 5
records. -/
theorem claim_C6_counterexample :
    fetch_youtube_viral_videos 5 (some (.ok [])) 0 rng0 = [] ∧
      (_get_youtube_mock_data 5 rng0 0).length = 5 :=
  ⟨rfl, mock_youtube_length 5 rng0 0⟩

/-- Claim C6 (amended): each fetcher returns at most `limit` records and is a
total function (never raises).  A missing service or a raised exception is
replaced by locally generated fallback data for YouTube and Twitter, the
TikTok fetcher always falls back because its service is disabled, and an
empty Twitter result also falls back; an empty successful YouTube response,
however, yields the empty list rather than fallback data. -/
theorem claim_C6_amended_fetchers
    (limit : Nat) (ytApi : YtApi) (twApi : TwApi) (now : Int) (rng : Rng) :
    (fetch_youtube_viral_videos limit ytApi now rng).length ≤ limit ∧
    (fetch_tiktok_viral_videos limit rng now).length ≤ limit ∧
    (fetch_twitter_viral_videos limit twApi now rng).length ≤ limit ∧
    (∀ e : PyErr,
      fetch_youtube_viral_videos limit none now rng = _get_youtube_mock_data limit rng now ∧
      fetch_youtube_viral_videos limit (some (.error e)) now rng =
        _get_youtube_mock_data limit rng now) ∧
    fetch_tiktok_viral_videos limit rng now = get_mock_tiktok_data limit rng now ∧
    (∀ (e : PyErr) (resp : TwResponse),
      fetch_twitter_viral_videos limit none now rng = _get_twitter_mock_data limit rng now ∧
      fetch_twitter_viral_videos limit (some (.error e)) now rng =
        _get_twitter_mock_data limit rng now ∧
      (resp.data = [] →
        fetch_twitter_viral_videos limit (some (.ok resp)) now rng =
          _get_twitter_mock_data limit rng now)) ∧
    fetch_youtube_viral_videos limit (some (.ok [])) now rng = [] := by
  refine ⟨?_, ?_, ?_, fun e => ⟨rfl, rfl⟩, rfl, fun e resp => ⟨rfl, rfl, ?_⟩, ?_⟩
  · match ytApi with
    | none => exact le_of_eq (mock_youtube_length limit rng now)
    | some (.error e) => exact le_of_eq (mock_youtube_length limit rng now)
    | some (.ok items) => exact List.length_take_le _ _
  · exact le_of_eq (mock_tiktok_length limit rng now)
  · match twApi with
    | none => exact le_of_eq (mock_twitter_length limit rng now)
    | some (.error e) => exact le_of_eq (mock_twitter_length limit rng now)
    | some (.ok resp) =>
      match hresp : resp.data with
      | [] =>
        rw [fetch_twitter_viral_videos, hresp]
        exact le_of_eq (mock_twitter_length limit rng now)
      | t :: ts =>
        rw [fetch_twitter_viral_videos, hresp, List.length_map]
        exact List.length_take_le _ _
  · intro hdata
    rw [fetch_twitter_viral_videos, hdata]
  · rw [fetch_youtube_viral_videos]
    rw [show (sortByScoreDesc (List.map (process_youtube_item now) [])) = [] from rfl]
    exact List.take_nil

/-- Witness for the amended C6 at limit 1 and an empty Twitter response. -/
theorem claim_C6_amended_fetchers_witness :
    ((⟨[], []⟩ : TwResponse).data = []) ∧
      fetch_twitter_viral_videos 1 (some (.ok ⟨[], []⟩)) 0 rng0 =
        _get_twitter_mock_data 1 rng0 0 :=
  ⟨rfl, ((claim_C6_amended_fetchers 1 none none 0 rng0).2.2.2.2.2.1 "err" ⟨[], []⟩).2.2 rfl⟩

/-! ## Thumbnail invariant (claim C8) -/

/-- A YouTube API item whose `thumbnails` dict carries no URL at any size
(all five `.get` lookups miss). -/
def c8item : YtItem := { id := "abc123", published_at := 0 }

/-- Claim C8 failing input: on the YouTube live path, an item with no
thumbnail URL produces a record whose `thumbnail` field is the empty string
(the final `.get('url', '')` default), violating the non-empty-thumbnail
contract checked by the repository's own test suite; the record's URL still
has the `/watch?v=` shape. -/
theorem claim_C8_empty_thumbnail_bug :
    (fetch_youtube_viral_videos 1 (some (.ok [c8item])) 0 rng0).map
        (fun v => v.thumbnail) = [""] ∧
      (fetch_youtube_viral_videos 1 (some (.ok [c8item])) 0 rng0).map
        (fun v => v.url) = ["https://www.youtube.com/watch?v=abc123"] :=
  ⟨rfl, rfl⟩

/-! ## Aggregation pipeline (claims C3 and C5) -/

/-- The tier cap never raises the requested limit. -/
theorem apply_tier_limit_le (user : Option User) (limit0 : Nat) :
    apply_tier_limit user limit0 ≤ limit0 := by
  match user with
  | some u =>
    rw [apply_tier_limit]
    split
    · exact min_le_left _ _
    · exact le_refl _
  | none => exact min_le_left _ _

/-- The aggregation described by the words of claim C3: request
`max(L / 3, 5)` items per platform for the caller-requested `L` itself,
concatenate, sort by score descending and truncate to `L`. -/
noncomputable def claimed_aggregation (limit0 : Nat)
    (fetchY fetchT fetchW : Nat → Except PyErr (List ViralVideo)) : List ViralVideo :=
  let n := max (limit0 / 3) 5
  (sortByScoreDesc (collect_results [fetchY n, fetchT n, fetchW n])).take limit0

/-- A fixed concrete record used by the aggregation counterexamples. -/
noncomputable def c3video : ViralVideo :=
  { title := "t", url := "u", thumbnail := "th", platform := .youtube,
    views := 1, likes := 1, author := "a", viral_score := 50, published_at := 0 }

/-- A fetcher returning `n` copies of the fixed record. -/
noncomputable def c3fetch : Nat → Except PyErr (List ViralVideo) :=
  fun n => .ok (List.replicate n c3video)

/-- Counterexample to claim C3: for an anonymous caller with `limit = 40`
the aggregator first caps the limit to the free plan's 10, so it requests
`max(10 / 3, 5) = 5` items per platform and truncates to 10, not the
`max(40 / 3, 5) = 13` per platform and truncation to 40 stated by the
claim: the two computations differ (lengths 10 versus 39). -/
theorem claim_C3_counterexample :
    get_aggregated_viral_videos none 40 c3fetch c3fetch c3fetch ≠
      claimed_aggregation 40 c3fetch c3fetch c3fetch := by
  intro h
  have h1 : (get_aggregated_viral_videos none 40 c3fetch c3fetch c3fetch).length = 10 := by
    rw [get_aggregated_viral_videos]
    simp only [apply_tier_limit, get_plan, collect_results, c3fetch, sortByScoreDesc]
    rw [List.length_take, List.length_insertionSort]
    simp [List.foldl, List.length_append, List.length_replicate]
  have h2 : (claimed_aggregation 40 c3fetch c3fetch c3fetch).length = 39 := by
    rw [claimed_aggregation]
    simp only [collect_results, c3fetch, sortByScoreDesc]
    rw [List.length_take, List.length_insertionSort]
    simp [List.foldl, List.length_append, List.length_replicate]
  rw [h, h2] at h1
  exact absurd h1 (by norm_num)

/-- Claim C3 (amended): with `L' = apply_tier_limit user L` the tier-capped
limit (anonymous callers are capped by the free plan), the aggregated result
has length at most `L` (indeed at most `L'`), is sorted in descending order
of viral score, and equals the concatenation of the three fetch outcomes at
`max(L' / 3, 5)` items per platform, sorted by score descending and
truncated to `L'`. -/
theorem claim_C3_amended_aggregation (user : Option User) (limit0 : Nat)
    (fY fT fW : Nat → Except PyErr (List ViralVideo)) :
    (get_aggregated_viral_videos user limit0 fY fT fW).length ≤ limit0 ∧
    List.Sorted byScoreDesc (get_aggregated_viral_videos user limit0 fY fT fW) ∧
    get_aggregated_viral_videos user limit0 fY fT fW =
      (sortByScoreDesc (collect_results
        [fY (max (apply_tier_limit user limit0 / 3) 5),
         fT (max (apply_tier_limit user limit0 / 3) 5),
         fW (max (apply_tier_limit user limit0 / 3) 5)])).take
        (apply_tier_limit user limit0) := by
  refine ⟨?_, ?_, rfl⟩
  · exact le_trans (List.length_take_le _ _) (apply_tier_limit_le user limit0)
  · exact List.Pairwise.sublist (List.take_sublist _ _)
      (List.sorted_insertionSort byScoreDesc _)

/-- Claim C5: gathered fetcher outcomes are isolated: the collection loop
keeps exactly the list results (the concatenation of the `ok` outcomes,
skipping exceptions), and when the pool fits under the capped limit the
aggregated output is a permutation of it; if all three fetchers raise, the
aggregator returns the empty list rather than raising. -/
theorem claim_C5_fetcher_isolation (user : Option User) (limit0 : Nat)
    (fY fT fW : Nat → Except PyErr (List ViralVideo)) :
    (∀ e1 e2 e3 : PyErr,
      get_aggregated_viral_videos user limit0
        (fun _ => .error e1) (fun _ => .error e2) (fun _ => .error e3) = []) ∧
    (collect_results
        [fY (max (apply_tier_limit user limit0 / 3) 5),
         fT (max (apply_tier_limit user limit0 / 3) 5),
         fW (max (apply_tier_limit user limit0 / 3) 5)] =
      ([fY (max (apply_tier_limit user limit0 / 3) 5),
        fT (max (apply_tier_limit user limit0 / 3) 5),
        fW (max (apply_tier_limit user limit0 / 3) 5)].filterMap Except.toOption).flatten) ∧
    ((collect_results
        [fY (max (apply_tier_limit user limit0 / 3) 5),
         fT (max (apply_tier_limit user limit0 / 3) 5),
         fW (max (apply_tier_limit user limit0 / 3) 5)]).length ≤
          apply_tier_limit user limit0 →
      (get_aggregated_viral_videos user limit0 fY fT fW).Perm
        (collect_results
          [fY (max (apply_tier_limit user limit0 / 3) 5),
           fT (max (apply_tier_limit user limit0 / 3) 5),
           fW (max (apply_tier_limit user limit0 / 3) 5)])) := by
  refine ⟨?_, ?_, ?_⟩
  · intro e1 e2 e3
    show (sortByScoreDesc (collect_results _)).take _ = []
    rw [show collect_results
        [Except.error (α := List ViralVideo) e1, Except.error e2, Except.error e3] =
          ([] : List ViralVideo) from rfl]
    rw [show sortByScoreDesc [] = [] from rfl]
    exact List.take_nil
  · cases fY (max (apply_tier_limit user limit0 / 3) 5) <;>
      cases fT (max (apply_tier_limit user limit0 / 3) 5) <;>
      cases fW (max (apply_tier_limit user limit0 / 3) 5) <;>
      simp [collect_results, Except.toOption]
  · intro h
    show ((sortByScoreDesc (collect_results _)).take _).Perm _
    rw [List.take_of_length_le]
    · exact List.perm_insertionSort _ _
    · rw [sortByScoreDesc, List.length_insertionSort]
      exact h

/-- Counterexample to claim C5: the returned list does not always contain
every record of the fetchers that returned a list: for an anonymous caller
with limit 40 (capped to 10) whose three fetchers return 5 records each, the
15-record pool is truncated to 10 records, dropping 5. -/
theorem claim_C5_counterexample :
    (get_aggregated_viral_videos none 40 c3fetch c3fetch c3fetch).length = 10 ∧
      (collect_results [c3fetch 5, c3fetch 5, c3fetch 5]).length = 15 := by
  constructor
  · rw [get_aggregated_viral_videos]
    simp only [apply_tier_limit, get_plan, collect_results, c3fetch, sortByScoreDesc]
    rw [List.length_take, List.length_insertionSort]
    simp [List.foldl, List.length_append, List.length_replicate]
  · simp [collect_results, c3fetch]

/-- Fetchers for the C5 witness: one list, one failure, one empty list. -/
noncomputable def c5fy : Nat → Except PyErr (List ViralVideo) := fun _ => .ok [c3video]

/-- The failing fetcher of the C5 witness. -/
def c5ft : Nat → Except PyErr (List ViralVideo) := fun _ => .error "plataforma caida"

/-- The empty fetcher of the C5 witness. -/
def c5fw : Nat → Except PyErr (List ViralVideo) := fun _ => .ok []

/-- Witness for C5 at an anonymous request with limit 12: the single-record
pool fits under the capped limit 10, so the output is a permutation of it. -/
theorem claim_C5_fetcher_isolation_witness :
    ((collect_results
        [c5fy (max (apply_tier_limit none 12 / 3) 5),
         c5ft (max (apply_tier_limit none 12 / 3) 5),
         c5fw (max (apply_tier_limit none 12 / 3) 5)]).length ≤
      apply_tier_limit none 12) ∧
    (get_aggregated_viral_videos none 12 c5fy c5ft c5fw).Perm
      (collect_results
        [c5fy (max (apply_tier_limit none 12 / 3) 5),
         c5ft (max (apply_tier_limit none 12 / 3) 5),
         c5fw (max (apply_tier_limit none 12 / 3) 5)]) :=
  ⟨by decide, (claim_C5_fetcher_isolation none 12 c5fy c5ft c5fw).2.2 (by decide)⟩

end ViralDaily
